import Mathlib

set_option autoImplicit false

/-! Shallow embedding of the zstate finite-state-machine library (Go),
covering its two engine generations — the stateful engine (internal
current-state cell, event-capability hooks, `fmt.Errorf` failures) and the
stateless engine (caller-supplied current state, transition-level hooks,
structured error values) — together with the Mermaid/DOT diagram generators,
and proofs about the behaviour of these definitions. -/

namespace ZState

/-- Go `error` values produced by the library: the four structured error
types declared in `errors.go`, plus `errorf msg` for the result of
`fmt.Errorf(msg)` — a bare message with no structured fields.  Go error
values of different dynamic types are distinguished by `errors.As`; here,
by constructor.  A field left unset in a Go composite literal holds the
type's zero value; we model the zero value of a type parameter as
`default`. -/
inductive GoError (S E : Type) where
  | stateError (state : S) (msg : String)
  | transitionError (from_ : S) (to_ : S) (event : E) (msg : String)
  | guardError (from_ : S) (to_ : S) (event : E)
  | noTransitionError (from_ : S) (event : E)
  | errorf (msg : String)
  deriving DecidableEq

/-- Go map read `m[k]` (comma-ok form) on a map modeled as an association
list without duplicate keys. -/
def mapLookup {K V : Type} [DecidableEq K] (m : List (K × V)) (k : K) : Option V :=
  match m with
  | [] => none
  | (k', v) :: rest => if k' = k then some v else mapLookup rest k

/-- Go map assignment `m[k] = v`: overwrite the entry when the key is
present, otherwise append a new entry. -/
def mapInsert {K V : Type} [DecidableEq K] (m : List (K × V)) (k : K) (v : V) : List (K × V) :=
  match m with
  | [] => [(k, v)]
  | (k', v') :: rest => if k' = k then (k, v) :: rest else (k', v') :: mapInsert rest k v

/-- Go set insertion `m[s] = struct{}{}` on a `map[S]struct{}` modeled as a
duplicate-free list: a no-op when the element is already present. -/
def setInsert {K : Type} [DecidableEq K] (m : List K) (k : K) : List K :=
  if k ∈ m then m else m ++ [k]

/-- One observable side effect of a `Trigger` call, in program order:
invocation of a transition-level hook (`transBefore`/`transAfter`),
invocation of an event-capability hook (`evBefore`/`evAfter`), or the
commit of the transition — the assignment to the current-state cell in the
stateful engine, the preparation of the returned target state in the
stateless engine. -/
inductive TraceEv where
  | transBefore
  | transAfter
  | evBefore
  | evAfter
  | commit
  deriving DecidableEq

/-! ## The stateless engine

The engine generation in which `Trigger` takes the current state as an
argument and returns the new state: structured errors (`errors.go`),
transition-level `before`/`after` hooks, no event capabilities.  `C`
stands for `context.Context`; hook callbacks (`TransitionCallback`) are
opaque caller-supplied procedures, modeled by values of a type `H`, and an
invocation of one is recorded in the returned trace. -/

namespace Stateless

/-- The `transition` record: target, originating state and event, optional
guard predicate and optional before/after callbacks. -/
structure Transition (S E C H : Type) where
  from_ : S
  to_ : S
  event : E
  guard : Option (C → S → S → E → Bool) := none
  before : Option H := none
  after : Option H := none

/-- `StateMachine`: the registered state set and the transition table,
a map from state to a map from event to transition. -/
structure StateMachine (S E C H : Type) where
  states : List S
  transitions : List (S × List (E × Transition S E C H))

/-- `stateMachineBuilder`: the mutable accumulator behind the fluent
builder interface. -/
structure stateMachineBuilder (S E C H : Type) where
  states : List S := []
  transitions : List (S × List (E × Transition S E C H)) := []

variable {S E C H : Type} [DecidableEq S] [DecidableEq E]

/-- `TransitionOption`: a function updating a transition under
construction. -/
abbrev TransitionOption (S E C H : Type) := Transition S E C H → Transition S E C H

/-- `WithGuard` sets the guard of a transition. -/
def WithGuard (guard : C → S → S → E → Bool) : TransitionOption S E C H :=
  fun t => { t with guard := some guard }

/-- `WithBefore` sets the before callback of a transition. -/
def WithBefore (callback : H) : TransitionOption S E C H :=
  fun t => { t with before := some callback }

/-- `WithAfter` sets the after callback of a transition. -/
def WithAfter (callback : H) : TransitionOption S E C H :=
  fun t => { t with after := some callback }

/-- `NewStateMachineBuilder`: empty state set, empty transition table. -/
def NewStateMachineBuilder : stateMachineBuilder S E C H :=
  { states := [], transitions := [] }

/-- `AddState` inserts a state into the builder's state set. -/
def AddState (b : stateMachineBuilder S E C H) (s : S) : stateMachineBuilder S E C H :=
  { b with states := setInsert b.states s }

/-- `AddTransition` builds a transition from `from_`, `to`, `event`,
applies the options in order, and stores it in `b.transitions[from_][event]`
(allocating the inner map if it is nil). -/
def AddTransition (b : stateMachineBuilder S E C H) (from_ to_ : S) (event : E)
    (opts : List (TransitionOption S E C H)) : stateMachineBuilder S E C H :=
  let t := opts.foldl (fun t opt => opt t) { from_ := from_, to_ := to_, event := event }
  { b with transitions :=
      (mapInsert b.transitions from_
        (mapInsert ((mapLookup b.transitions from_).getD []) event t)) }

/-- `Build`: fails with a `StateError` (message only; `State` keeps the zero
value) when the state set is empty, otherwise returns the machine carrying
the builder's state set and transition table. -/
def Build [Inhabited S] (b : stateMachineBuilder S E C H) :
    Except (GoError S E) (StateMachine S E C H) :=
  if b.states = [] then
    .error (.stateError default "state machine must have at least one state")
  else
    .ok { states := b.states, transitions := b.transitions }

/-- The side effects of a committed stateless transition, in program order:
the before callback when attached, then the commit of the return value,
then the deferred after callback when attached. -/
def hookTrace (t : Transition S E C H) : List TraceEv :=
  (if t.before.isSome then [TraceEv.transBefore] else []) ++ [TraceEv.commit] ++
    (if t.after.isSome then [TraceEv.transAfter] else [])

/-- `Trigger` of the stateless engine: look up
`sm.transitions[currentState][event]` (a missing outer entry reads as a nil
inner map); fail with `NoTransitionError` when absent; evaluate the guard
when attached and fail with `GuardError` when it rejects; otherwise run the
before callback, schedule the deferred after callback, and return the
target state. -/
def Trigger (sm : StateMachine S E C H) (ctx : C) (currentState : S) (event : E) :
    (S × Option (GoError S E)) × List TraceEv :=
  match mapLookup ((mapLookup sm.transitions currentState).getD []) event with
  | none => ((currentState, some (.noTransitionError currentState event)), [])
  | some t =>
    match t.guard with
    | some g =>
      if g ctx currentState t.to_ event then ((t.to_, none), hookTrace t)
      else ((currentState, some (.guardError currentState t.to_ event)), [])
    | none => ((t.to_, none), hookTrace t)

end Stateless

/-! ## The stateful engine

The engine generation in which the machine owns a mutable current-state
cell: `Trigger(ctx, event)` reads and overwrites `sm.currentState` under an
exclusive lock, transitions carry only a guard, and the event value itself
may expose before/after capabilities (`BeforeTransitionEvent` /
`AfterTransitionEvent`), checked at run time with a type assertion on the
event value.  Both trigger-time failure paths return the same
`fmt.Errorf` error.  The lock itself serializes calls and has no further
observable effect in a single sequential run, so it is not modeled. -/

namespace Stateful

/-- The `transition` record of the stateful engine: no hook fields, only an
optional guard. -/
structure Transition (S E C : Type) where
  from_ : S
  to_ : S
  event : E
  guard : Option (C → S → S → E → Bool) := none

/-- `StateMachine`: state set, transition table and the current-state
cell. -/
structure StateMachine (S E C : Type) where
  states : List S
  transitions : List (S × List (E × Transition S E C))
  currentState : S

/-- `stateMachineBuilder` of the stateful engine: the Go struct holds
`initialState S` (zero value until set) plus the `isInitialStateSet`
flag. -/
structure stateMachineBuilder (S E C : Type) where
  states : List S := []
  transitions : List (S × List (E × Transition S E C)) := []
  initialState : S
  isInitialStateSet : Bool := false

variable {S E C : Type} [DecidableEq S] [DecidableEq E]

/-- `TransitionOption` of the stateful engine. -/
abbrev TransitionOption (S E C : Type) := Transition S E C → Transition S E C

/-- `WithGuard` sets the guard of a transition. -/
def WithGuard (guard : C → S → S → E → Bool) : TransitionOption S E C :=
  fun t => { t with guard := some guard }

/-- `NewStateMachineBuilder`: empty maps; `initialState` holds the zero
value of `S`, `isInitialStateSet` is false. -/
def NewStateMachineBuilder [Inhabited S] : stateMachineBuilder S E C :=
  { states := [], transitions := [], initialState := default }

/-- `AddState` inserts a state into the builder's state set. -/
def AddState (b : stateMachineBuilder S E C) (s : S) : stateMachineBuilder S E C :=
  { b with states := setInsert b.states s }

/-- `SetInitialState` records the intended initial state and sets the
flag; membership is not checked here. -/
def SetInitialState (b : stateMachineBuilder S E C) (s : S) : stateMachineBuilder S E C :=
  { b with initialState := s, isInitialStateSet := true }

/-- `AddTransition`, identical in structure to the stateless builder's. -/
def AddTransition (b : stateMachineBuilder S E C) (from_ to_ : S) (event : E)
    (opts : List (TransitionOption S E C)) : stateMachineBuilder S E C :=
  let t := opts.foldl (fun t opt => opt t) { from_ := from_, to_ := to_, event := event }
  { b with transitions :=
      (mapInsert b.transitions from_
        (mapInsert ((mapLookup b.transitions from_).getD []) event t)) }

/-- `Build` of the stateful engine: three validation steps, each failing
with a `fmt.Errorf` message; on success the machine's current-state cell is
seeded with the initial state. -/
def Build (b : stateMachineBuilder S E C) :
    Except (GoError S E) (StateMachine S E C) :=
  if b.states = [] then
    .error (.errorf "state machine must have at least one state")
  else if !b.isInitialStateSet then
    .error (.errorf "initial state must be set")
  else if b.initialState ∉ b.states then
    .error (.errorf "initial state must be a valid state")
  else
    .ok { states := b.states, transitions := b.transitions, currentState := b.initialState }

/-- The side effects of a committed stateful transition, in program order:
the event's before capability when it has one, then the write to the
current-state cell, then the event's after capability when it has one. -/
def capTrace (beforeCap afterCap : E → Bool) (event : E) : List TraceEv :=
  (if beforeCap event then [TraceEv.evBefore] else []) ++ [TraceEv.commit] ++
    (if afterCap event then [TraceEv.evAfter] else [])

/-- `Trigger` of the stateful engine: nested comma-ok lookups of
`sm.transitions[sm.currentState]` and `transitions[event]`, then the guard
test `t.guard == nil || t.guard(ctx, sm.currentState, t.to, event)`; on
success the event's capabilities run around the cell update and the call
returns nil; every failure path falls through to the single
`fmt.Errorf("no valid transition for current state and given event")`.
`beforeCap`/`afterCap` model the runtime type assertions
`any(event).(BeforeTransitionEvent)` / `any(event).(AfterTransitionEvent)`:
whether the event value implements the capability interface. -/
def Trigger (beforeCap afterCap : E → Bool) (ctx : C) (sm : StateMachine S E C)
    (event : E) : (StateMachine S E C × Option (GoError S E)) × List TraceEv :=
  match mapLookup sm.transitions sm.currentState with
  | some transitions =>
    match mapLookup transitions event with
    | some t =>
      if (match t.guard with
          | none => true
          | some g => g ctx sm.currentState t.to_ event) then
        (({ sm with currentState := t.to_ }, none), capTrace beforeCap afterCap event)
      else
        ((sm, some (.errorf "no valid transition for current state and given event")), [])
    | none =>
      ((sm, some (.errorf "no valid transition for current state and given event")), [])
  | none =>
    ((sm, some (.errorf "no valid transition for current state and given event")), [])

/-- `GetCurrentState` reads the current-state cell. -/
def GetCurrentState (sm : StateMachine S E C) : S :=
  sm.currentState

end Stateful

/-! ## Diagram generation

The Mermaid and DOT generators consume the states and the transition table
after conversion to strings.  Go map iteration order is unspecified, so the
generators receive the states and the (outer) transition table as lists in
an arbitrary enumeration order; both generators sort before emitting.  The
Go code sorts with `sort.Strings` (ascending) and `sort.Slice` with a
strict lexicographic comparator on `(from, to, event)`; since that
comparator induces a linear order, the sorted result is the unique sorted
permutation, modeled here with `List.insertionSort`. -/

namespace Diagram

/-- `DiagramFormat` is a Go `int`. -/
abbrev DiagramFormat := Int

/-- The `MermaidFormat` constant (`iota` value 0). -/
def MermaidFormat : DiagramFormat := 0

/-- The `DOTFormat` constant (`iota` value 1). -/
def DOTFormat : DiagramFormat := 1

/-- The order induced by the `sort.Slice` comparator of both generators:
lexicographic on `(from, to, event)` — compare `from`, then `to`, then
`event`. -/
def transLe (a b : String × String × String) : Prop :=
  a.1 < b.1 ∨ (a.1 = b.1 ∧ (a.2.1 < b.2.1 ∨ (a.2.1 = b.2.1 ∧ a.2.2 ≤ b.2.2)))

/-- The same order through the lexicographic product, for its order
instances. -/
def transKey (a : String × String × String) : String ×ₗ String ×ₗ String :=
  toLex (a.1, toLex (a.2.1, a.2.2))

theorem transLe_iff (a b : String × String × String) :
    transLe a b ↔ transKey a ≤ transKey b := by
  simp [transLe, transKey, Prod.Lex.le_iff]

instance : DecidableRel transLe := fun a b => by
  unfold transLe
  infer_instance

instance : IsTotal (String × String × String) transLe :=
  ⟨fun a b => by
    rw [transLe_iff, transLe_iff]
    exact le_total _ _⟩

instance : IsTrans (String × String × String) transLe :=
  ⟨fun a b c hab hbc => by
    rw [transLe_iff] at *
    exact le_trans hab hbc⟩

instance : IsAntisymm (String × String × String) transLe :=
  ⟨fun a b hab hba => by
    rw [transLe_iff] at hab hba
    have h : transKey a = transKey b := le_antisymm hab hba
    obtain ⟨a1, a2, a3⟩ := a
    obtain ⟨b1, b2, b3⟩ := b
    simpa [transKey, Prod.ext_iff] using h⟩

/-- `sort.Strings`: ascending lexicographic sort of the state names. -/
def sortStates (states : List String) : List String :=
  List.insertionSort (· ≤ ·) states

/-- The collection loop of both generators: iterate the outer map, then
each inner map, producing `transition{from, to, event}` records. -/
def collectTransitions (transitions : List (String × List (String × String))) :
    List (String × String × String) :=
  transitions.flatMap (fun p => p.2.map (fun q => (p.1, q.2, q.1)))

/-- `sort.Slice` with the lexicographic comparator. -/
def sortTransitions (ts : List (String × String × String)) :
    List (String × String × String) :=
  List.insertionSort transLe ts

/-- One Mermaid state line: the current state is marked with `[*]`. -/
def mermaidStateLine (currentState s : String) : String :=
  if s = currentState then "    " ++ s ++ " : [*] " ++ s ++ "\n"
  else "    " ++ s ++ "\n"

/-- `MermaidGenerator.Generate`. -/
def MermaidGenerate (states : List String)
    (transitions : List (String × List (String × String)))
    (currentState : String) : String :=
  "stateDiagram-v2\n"
    ++ String.join ((sortStates states).map (mermaidStateLine currentState))
    ++ String.join ((sortTransitions (collectTransitions transitions)).map
        (fun t => "    " ++ t.1 ++ " --> " ++ t.2.1 ++ " : " ++ t.2.2 ++ "\n"))

/-- One DOT state line: the current state is drawn as a filled double
circle. -/
def dotStateLine (currentState s : String) : String :=
  if s = currentState then
    "    \"" ++ s ++ "\" [shape=doublecircle, style=filled, fillcolor=lightblue];\n"
  else
    "    \"" ++ s ++ "\" [shape=circle];\n"

/-- `DOTGenerator.Generate`. -/
def DOTGenerate (states : List String)
    (transitions : List (String × List (String × String)))
    (currentState : String) : String :=
  "digraph StateMachine \x7b\n"
    ++ String.join ((sortStates states).map (dotStateLine currentState))
    ++ String.join ((sortTransitions (collectTransitions transitions)).map
        (fun t => "    \"" ++ t.1 ++ "\" -> \"" ++ t.2.1 ++ "\" [label=\"" ++ t.2.2 ++ "\"];\n"))
    ++ "\x7d"

variable {S E C H : Type} [DecidableEq S] [DecidableEq E]

/-- The state-set conversion loop of `GenerateDiagram`:
`stringStates[fmt.Sprintf("%v", state)] = struct{}{}` for each registered
state.  `toStr` models `fmt.Sprintf("%v", ·)`. -/
def stringStates (toStr : S → String) (states : List S) : List String :=
  states.foldl (fun acc s => setInsert acc (toStr s)) []

/-- The transition-table conversion loop of `GenerateDiagram`: for each
outer entry a fresh inner string map is assigned (overwriting any previous
entry under a colliding stringified key), then filled with
`event ↦ transition.to`. -/
def stringTransitions (toStrS : S → String) (toStrE : E → String)
    (transitions : List (S × List (E × Stateless.Transition S E C H))) :
    List (String × List (String × String)) :=
  transitions.foldl
    (fun acc p =>
      mapInsert acc (toStrS p.1)
        (p.2.foldl (fun inner q => mapInsert inner (toStrE q.1) (toStrS q.2.to_)) []))
    []

/-- `GenerateDiagram`: select the generator by format (any other format
value fails before any conversion), convert states and transitions to
strings, and generate. -/
def GenerateDiagram (toStrS : S → String) (toStrE : E → String)
    (sm : Stateless.StateMachine S E C H) (format : DiagramFormat)
    (currentState : S) : Except String String :=
  if format = MermaidFormat then
    .ok (MermaidGenerate (stringStates toStrS sm.states)
      (stringTransitions toStrS toStrE sm.transitions) (toStrS currentState))
  else if format = DOTFormat then
    .ok (DOTGenerate (stringStates toStrS sm.states)
      (stringTransitions toStrS toStrE sm.transitions) (toStrS currentState))
  else
    .error "unsupported diagram format"

end Diagram

/-! ## Reference-semantics model of builder/engine map sharing

Go maps are reference types: `Build` copies the builder's map *headers*
into the machine struct (`states: b.states, transitions: b.transitions`),
so every machine built from a builder denotes the same state-set and
transition-table objects as the builder, while each `Build` call allocates
a fresh machine struct and hence a fresh current-state cell.  The
value-level models above are adequate for runs that never mutate the
builder after `Build`; to settle claims about mutation after `Build`, this
model puts the map objects and the cells in an explicit heap, with
builders and machines holding references into it.  `TriggerRef`
reconstructs the machine view from the heap, runs `Stateful.Trigger` on
it, and writes the cell back. -/

namespace StatefulRef

/-- The heap: state-set objects, transition-table objects, and the
current-state cells of built machines, each addressed by its index. -/
structure Heap (S E C : Type) where
  statesObjs : List (List S)
  transObjs : List (List (S × List (E × Stateful.Transition S E C)))
  cellObjs : List S

/-- A builder value: references to its two map objects plus its two plain
value fields. -/
structure BuilderRef (S : Type) where
  statesRef : Nat
  transRef : Nat
  initialState : S
  isInitialStateSet : Bool

/-- A built machine: references to the (shared) map objects and to its own
current-state cell. -/
structure MachineRef where
  statesRef : Nat
  transRef : Nat
  cellRef : Nat

variable {S E C : Type} [DecidableEq S] [DecidableEq E]

/-- `NewStateMachineBuilder` under reference semantics: allocate one empty
state-set object and one empty transition-table object. -/
def NewStateMachineBuilderRef [Inhabited S] (h : Heap S E C) :
    BuilderRef S × Heap S E C :=
  ({ statesRef := h.statesObjs.length, transRef := h.transObjs.length,
     initialState := default, isInitialStateSet := false },
   { h with statesObjs := h.statesObjs ++ [[]], transObjs := h.transObjs ++ [[]] })

/-- `AddState` under reference semantics: mutate the builder's state-set
object in place. -/
def AddStateRef (h : Heap S E C) (b : BuilderRef S) (s : S) : Heap S E C :=
  { h with statesObjs :=
      (h.statesObjs.set b.statesRef (setInsert (h.statesObjs.getD b.statesRef []) s)) }

/-- `SetInitialState` under reference semantics: updates the builder's two
value fields only. -/
def SetInitialStateRef (b : BuilderRef S) (s : S) : BuilderRef S :=
  { b with initialState := s, isInitialStateSet := true }

/-- `AddTransition` under reference semantics: mutate the builder's
transition-table object in place. -/
def AddTransitionRef (h : Heap S E C) (b : BuilderRef S) (from_ to_ : S) (event : E)
    (opts : List (Stateful.TransitionOption S E C)) : Heap S E C :=
  let m := h.transObjs.getD b.transRef []
  let t := opts.foldl (fun t opt => opt t) { from_ := from_, to_ := to_, event := event }
  { h with transObjs :=
      (h.transObjs.set b.transRef
        (mapInsert m from_ (mapInsert ((mapLookup m from_).getD []) event t))) }

/-- `Build` under reference semantics: the same three validations as
`Stateful.Build`; on success the machine receives the builder's map
references unchanged and a freshly allocated current-state cell seeded
with the initial state. -/
def BuildRef (h : Heap S E C) (b : BuilderRef S) :
    Except (GoError S E) MachineRef × Heap S E C :=
  if h.statesObjs.getD b.statesRef [] = [] then
    (.error (.errorf "state machine must have at least one state"), h)
  else if !b.isInitialStateSet then
    (.error (.errorf "initial state must be set"), h)
  else if b.initialState ∉ h.statesObjs.getD b.statesRef [] then
    (.error (.errorf "initial state must be a valid state"), h)
  else
    (.ok { statesRef := b.statesRef, transRef := b.transRef, cellRef := h.cellObjs.length },
     { h with cellObjs := h.cellObjs ++ [b.initialState] })

/-- `Trigger` under reference semantics: read the machine's map objects and
cell from the heap, run the value-level `Stateful.Trigger`, and write the
resulting current state back to the machine's cell. -/
def TriggerRef [Inhabited S] (beforeCap afterCap : E → Bool) (ctx : C)
    (h : Heap S E C) (m : MachineRef) (event : E) :
    (Heap S E C × Option (GoError S E)) × List TraceEv :=
  let sm : Stateful.StateMachine S E C :=
    { states := h.statesObjs.getD m.statesRef [],
      transitions := h.transObjs.getD m.transRef [],
      currentState := h.cellObjs.getD m.cellRef default }
  let r := Stateful.Trigger beforeCap afterCap ctx sm event
  (({ h with cellObjs := h.cellObjs.set m.cellRef r.1.1.currentState }, r.1.2), r.2)

/-- `GetCurrentState` under reference semantics: read the machine's cell. -/
def GetCurrentStateRef [Inhabited S] (h : Heap S E C) (m : MachineRef) : S :=
  h.cellObjs.getD m.cellRef default

end StatefulRef

/-! ## Helper lemmas about the map model -/

theorem mapLookup_mapInsert_self {K V : Type} [DecidableEq K]
    (m : List (K × V)) (k : K) (v : V) :
    mapLookup (mapInsert m k v) k = some v := by
  induction m with
  | nil => simp [mapInsert, mapLookup]
  | cons p rest ih =>
    obtain ⟨k', v'⟩ := p
    by_cases h : k' = k
    · simp [mapInsert, h, mapLookup]
    · simp [mapInsert, h, mapLookup, ih]

theorem mapInsert_mapInsert_same {K V : Type} [DecidableEq K]
    (m : List (K × V)) (k : K) (v₁ v₂ : V) :
    mapInsert (mapInsert m k v₁) k v₂ = mapInsert m k v₂ := by
  induction m with
  | nil => simp [mapInsert]
  | cons p rest ih =>
    obtain ⟨k', v'⟩ := p
    by_cases h : k' = k
    · simp [mapInsert, h]
    · simp [mapInsert, h, ih]

theorem getD_set_ne {α : Type} (l : List α) (i j : Nat) (a d : α) (hij : i ≠ j) :
    (l.set i a).getD j d = l.getD j d := by
  simp [List.getD_eq_getElem?_getD, List.getElem?_set_ne hij]

theorem getD_concat_length {α : Type} (l : List α) (a d : α) :
    (l ++ [a]).getD l.length d = a := by
  simp [List.getD_eq_getElem?_getD, List.getElem?_concat_length]

/-! ## Trace observations -/

/-- The part of a trace that runs strictly before the commit. -/
def preCommit (tr : List TraceEv) : List TraceEv :=
  tr.takeWhile (fun x => x != TraceEv.commit)

/-- The part of a trace that runs strictly after the commit. -/
def postCommit (tr : List TraceEv) : List TraceEv :=
  (tr.dropWhile (fun x => x != TraceEv.commit)).drop 1

/-- The trace `tr` commits exactly once; the before-style event `bEv` runs
exactly once, strictly before the commit, when `hasB` (and never
otherwise); and the after-style event `aEv` runs exactly once, strictly
after the commit, when `hasA` (and never otherwise). -/
def bracketsCommit (tr : List TraceEv) (bEv aEv : TraceEv) (hasB hasA : Bool) : Prop :=
  tr.count TraceEv.commit = 1
  ∧ (preCommit tr).count bEv = (if hasB then 1 else 0)
  ∧ (postCommit tr).count bEv = 0
  ∧ (preCommit tr).count aEv = 0
  ∧ (postCommit tr).count aEv = (if hasA then 1 else 0)

/-! ## Concrete machines, for evaluating the engines at specific inputs -/

/-- A stateful machine over `S = E = Nat`: state set `{0}`, current state
`0`, one transition `0 → 1` on event `1` with a constant-false guard, and
no entry for any other event. -/
def guardedStateful : Stateful.StateMachine Nat Nat Unit :=
  { states := [0],
    transitions := [(0, [(1, { from_ := 0, to_ := 1, event := 1,
                               guard := some (fun _ _ _ _ => false) })])],
    currentState := 0 }

/-- An event with neither capability: the runtime type assertions of the
stateful `Trigger` both fail. -/
def noCap : Nat → Bool := fun _ => false

/-- An event type all of whose values carry both capabilities. -/
def allCap : Nat → Bool := fun _ => true

/-- A stateful machine with an unguarded transition `0 → 1` on event
`1`. -/
def plainStateful : Stateful.StateMachine Nat Nat Unit :=
  { states := [0],
    transitions := [(0, [(1, { from_ := 0, to_ := 1, event := 1 })])],
    currentState := 0 }

/-- A stateless machine (hook type `H = Nat`) with a transition `0 → 1` on
event `1` carrying both a before and an after callback. -/
def hookedStateless : Stateless.StateMachine Nat Nat Unit Nat :=
  { states := [0],
    transitions := [(0, [(1, { from_ := 0, to_ := 1, event := 1,
                               before := some 10, after := some 20 })])] }

/-- A stateful machine whose registered state set is `{0}` but whose
transitions leave it: `0 → 5` on event `1`, `5 → 7` on event `2`; both `5`
and `7` are unregistered. -/
def outsideStateful : Stateful.StateMachine Nat Nat Unit :=
  { states := [0],
    transitions := [(0, [(1, { from_ := 0, to_ := 5, event := 1 })]),
                    (5, [(2, { from_ := 5, to_ := 7, event := 2 })])],
    currentState := 0 }

/-- A stateless machine with the same table as `outsideStateful`. -/
def outsideStateless : Stateless.StateMachine Nat Nat Unit Unit :=
  { states := [0],
    transitions := [(0, [(1, { from_ := 0, to_ := 5, event := 1 })]),
                    (5, [(2, { from_ := 5, to_ := 7, event := 2 })])] }

/-! ## Claims -/

/-- C10: `GenerateDiagram` returns an error exactly when the requested
format is neither `MermaidFormat` nor `DOTFormat`; for the two supported
formats it always returns a diagram string and a nil error, for every
state machine and current state. -/
theorem C10_generateDiagram_error_iff_unsupported_format
    {S E C H : Type} [DecidableEq S] [DecidableEq E]
    (toStrS : S → String) (toStrE : E → String)
    (sm : Stateless.StateMachine S E C H) (format : Diagram.DiagramFormat)
    (currentState : S) :
    ((∃ msg, Diagram.GenerateDiagram toStrS toStrE sm format currentState
        = .error msg)
      ↔ (format ≠ Diagram.MermaidFormat ∧ format ≠ Diagram.DOTFormat))
    ∧ ((∃ s, Diagram.GenerateDiagram toStrS toStrE sm format currentState
        = .ok s)
      ↔ (format = Diagram.MermaidFormat ∨ format = Diagram.DOTFormat)) := by
  unfold Diagram.GenerateDiagram
  by_cases h1 : format = Diagram.MermaidFormat
  · simp [h1, Diagram.MermaidFormat, Diagram.DOTFormat]
  · by_cases h2 : format = Diagram.DOTFormat
    · simp [h1, h2, Diagram.MermaidFormat, Diagram.DOTFormat]
    · simp [h1, h2]

theorem insertionSort_eq_of_perm {α : Type} (r : α → α → Prop) [DecidableRel r]
    [IsTotal α r] [IsTrans α r] [IsAntisymm α r] {l₁ l₂ : List α} (h : l₁.Perm l₂) :
    List.insertionSort r l₁ = List.insertionSort r l₂ :=
  List.eq_of_perm_of_sorted
    ((List.perm_insertionSort r l₁).trans (h.trans (List.perm_insertionSort r l₂).symm))
    (List.sorted_insertionSort r l₁) (List.sorted_insertionSort r l₂)

/-- C9: diagram generation is deterministic.  The states and the transition
table reach the generators through Go map iteration, whose order is
unspecified; for any two enumeration orders of the same state set and the
same set of transition triples, each generator produces byte-identical
output, the emitted state list is sorted ascending, and the emitted
transition list is sorted lexicographically by `(from, to, event)`. -/
theorem C9_diagram_generation_deterministic
    (states₁ states₂ : List String)
    (ts₁ ts₂ : List (String × List (String × String))) (cur : String)
    (hs : states₁.Perm states₂)
    (ht : (Diagram.collectTransitions ts₁).Perm (Diagram.collectTransitions ts₂)) :
    Diagram.MermaidGenerate states₁ ts₁ cur = Diagram.MermaidGenerate states₂ ts₂ cur
    ∧ Diagram.DOTGenerate states₁ ts₁ cur = Diagram.DOTGenerate states₂ ts₂ cur
    ∧ List.Sorted (· ≤ ·) (Diagram.sortStates states₁)
    ∧ List.Sorted Diagram.transLe
        (Diagram.sortTransitions (Diagram.collectTransitions ts₁)) := by
  have hs' : Diagram.sortStates states₁ = Diagram.sortStates states₂ :=
    insertionSort_eq_of_perm _ hs
  have ht' : Diagram.sortTransitions (Diagram.collectTransitions ts₁)
      = Diagram.sortTransitions (Diagram.collectTransitions ts₂) :=
    insertionSort_eq_of_perm _ ht
  refine ⟨?_, ?_, ?_, ?_⟩
  · unfold Diagram.MermaidGenerate
    rw [hs', ht']
  · unfold Diagram.DOTGenerate
    rw [hs', ht']
  · exact List.sorted_insertionSort _ _
  · exact List.sorted_insertionSort _ _

/-- Witness for C9 at a concrete input: two enumeration orders of a
three-state, three-transition table produce identical Mermaid and DOT
output. -/
theorem C9_diagram_generation_deterministic_witness :
    Diagram.MermaidGenerate ["b", "a", "c"]
        [("b", [("e", "a"), ("f", "c")]), ("a", [("e", "b")])] "a"
      = Diagram.MermaidGenerate ["a", "c", "b"]
        [("a", [("e", "b")]), ("b", [("f", "c"), ("e", "a")])] "a"
    ∧ Diagram.DOTGenerate ["b", "a", "c"]
        [("b", [("e", "a"), ("f", "c")]), ("a", [("e", "b")])] "a"
      = Diagram.DOTGenerate ["a", "c", "b"]
        [("a", [("e", "b")]), ("b", [("f", "c"), ("e", "a")])] "a"
    ∧ List.Sorted (· ≤ ·) (Diagram.sortStates ["b", "a", "c"])
    ∧ List.Sorted Diagram.transLe
        (Diagram.sortTransitions (Diagram.collectTransitions
          [("b", [("e", "a"), ("f", "c")]), ("a", [("e", "b")])])) :=
  C9_diagram_generation_deterministic _ _ _ _ _ (by decide) (by decide)

/-- C8: `Trigger` never consults the registered state set, in either
engine: replacing the state set changes nothing about the outcome.
Concretely, machine `outsideStateful` has state set `{0}`, yet `0 → 5` on
event `1` commits the cell to the unregistered state `5`, and a trigger
from the unregistered current state `5` succeeds (`5 → 7` on event `2` in
the stateless twin). -/
theorem C8_trigger_ignores_state_set
    {S E C H : Type} [DecidableEq S] [DecidableEq E] :
    (∀ (sm : Stateless.StateMachine S E C H) (states' : List S) (ctx : C)
       (c : S) (e : E),
       Stateless.Trigger { sm with states := states' } ctx c e
         = Stateless.Trigger sm ctx c e)
    ∧ (∀ (smf : Stateful.StateMachine S E C) (states' : List S)
         (beforeCap afterCap : E → Bool) (ctx : C) (e : E),
         ((Stateful.Trigger beforeCap afterCap ctx { smf with states := states' } e).1.1.currentState
            = (Stateful.Trigger beforeCap afterCap ctx smf e).1.1.currentState)
         ∧ (Stateful.Trigger beforeCap afterCap ctx { smf with states := states' } e).1.2
            = (Stateful.Trigger beforeCap afterCap ctx smf e).1.2
         ∧ (Stateful.Trigger beforeCap afterCap ctx { smf with states := states' } e).2
            = (Stateful.Trigger beforeCap afterCap ctx smf e).2)
    ∧ (Stateful.Trigger noCap noCap () outsideStateful 1).1.1.currentState = 5
    ∧ (Stateful.Trigger noCap noCap () outsideStateful 1).1.2 = none
    ∧ ¬ 5 ∈ outsideStateful.states
    ∧ (Stateless.Trigger outsideStateless () 5 2).1 = (7, none) := by
  refine ⟨?_, ?_, by decide, by decide, by decide, by decide⟩
  · intro sm states' ctx c e
    rfl
  · intro smf states' beforeCap afterCap ctx e
    simp only [Stateful.Trigger]
    rcases h1 : mapLookup smf.transitions smf.currentState with _ | trs
    · simp [h1]
    · simp only [h1]
      rcases h2 : mapLookup trs e with _ | t
      · simp [h2]
      · simp only [h2]
        by_cases hg : ((match t.guard with
            | none => true
            | some g => g ctx smf.currentState t.to_ e) = true)
        · simp [if_pos hg]
        · simp [if_neg hg]

/-- C5: duplicate registration of the same `(from, event)` pair — in either
builder generation — silently replaces the first transition: the resulting
builder is exactly the builder that only ever saw the second registration
(so `Build` and every `Trigger` behave per the second transition's target,
guard and hooks), the table entry is the transition constructed from the
second call's arguments and options, and registration has no error
channel. -/
theorem C5_duplicate_registration_overwrites
    {S E C H : Type} [DecidableEq S] [DecidableEq E] :
    (∀ (b : Stateless.stateMachineBuilder S E C H) (from_ to₁ to₂ : S) (e : E)
       (opts₁ opts₂ : List (Stateless.TransitionOption S E C H)),
       Stateless.AddTransition (Stateless.AddTransition b from_ to₁ e opts₁)
           from_ to₂ e opts₂
         = Stateless.AddTransition b from_ to₂ e opts₂
       ∧ mapLookup ((mapLookup (Stateless.AddTransition
             (Stateless.AddTransition b from_ to₁ e opts₁)
             from_ to₂ e opts₂).transitions from_).getD []) e
         = some (opts₂.foldl (fun t opt => opt t)
             { from_ := from_, to_ := to₂, event := e }))
    ∧ (∀ (b : Stateful.stateMachineBuilder S E C) (from_ to₁ to₂ : S) (e : E)
       (opts₁ opts₂ : List (Stateful.TransitionOption S E C)),
       Stateful.AddTransition (Stateful.AddTransition b from_ to₁ e opts₁)
           from_ to₂ e opts₂
         = Stateful.AddTransition b from_ to₂ e opts₂) := by
  refine ⟨fun b from_ to₁ to₂ e opts₁ opts₂ => ⟨?_, ?_⟩,
          fun b from_ to₁ to₂ e opts₁ opts₂ => ?_⟩
  · simp [Stateless.AddTransition, mapLookup_mapInsert_self, mapInsert_mapInsert_same]
  · simp [Stateless.AddTransition, mapLookup_mapInsert_self, mapInsert_mapInsert_same]
  · simp [Stateful.AddTransition, mapLookup_mapInsert_self, mapInsert_mapInsert_same]

/-- C4: `Build` fails exactly when the builder is malformed.  Stateless
engine: the single check is an empty state set (`StateError`); any
non-empty state set builds successfully.  Stateful engine: empty state
set, unset initial state, and non-member initial state each fail with
their own error, and otherwise `Build` succeeds with the current-state
cell seeded to the initial state. -/
theorem C4_build_validation
    {S E C H : Type} [DecidableEq S] [DecidableEq E] [Inhabited S] :
    (∀ b : Stateless.stateMachineBuilder S E C H,
       (b.states = [] →
         Stateless.Build b
           = .error (.stateError default "state machine must have at least one state"))
       ∧ (b.states ≠ [] →
         Stateless.Build b = .ok { states := b.states, transitions := b.transitions }))
    ∧ (∀ b : Stateful.stateMachineBuilder S E C,
       (b.states = [] →
         Stateful.Build b = .error (.errorf "state machine must have at least one state"))
       ∧ (b.states ≠ [] → b.isInitialStateSet = false →
         Stateful.Build b = .error (.errorf "initial state must be set"))
       ∧ (b.states ≠ [] → b.isInitialStateSet = true → b.initialState ∉ b.states →
         Stateful.Build b = .error (.errorf "initial state must be a valid state"))
       ∧ (b.states ≠ [] → b.isInitialStateSet = true → b.initialState ∈ b.states →
         Stateful.Build b
           = .ok { states := b.states, transitions := b.transitions,
                   currentState := b.initialState })) := by
  constructor
  · intro b
    constructor
    · intro h
      simp [Stateless.Build, h]
    · intro h
      simp [Stateless.Build, h]
  · intro b
    refine ⟨?_, ?_, ?_, ?_⟩
    · intro h
      simp [Stateful.Build, h]
    · intro h1 h2
      simp [Stateful.Build, h1, h2]
    · intro h1 h2 h3
      simp [Stateful.Build, h1, h2, h3]
    · intro h1 h2 h3
      simp [Stateful.Build, h1, h2, h3]

/-- A one-state stateless builder. -/
def statelessB1 : Stateless.stateMachineBuilder Nat Nat Unit Unit :=
  { states := [0] }

/-- A one-state stateful builder with its initial state set to the
registered state. -/
def statefulB1 : Stateful.stateMachineBuilder Nat Nat Unit :=
  { states := [0], initialState := 0, isInitialStateSet := true }

/-- Witness for C4: both success branches at concrete one-state
builders. -/
theorem C4_build_validation_witness :
    Stateless.Build statelessB1 = .ok { states := [0], transitions := [] }
    ∧ Stateful.Build statefulB1
      = .ok { states := [0], transitions := [], currentState := 0 } :=
  ⟨((C4_build_validation (C := Unit) (H := Unit)).1 statelessB1).2 (by decide),
   ((C4_build_validation (C := Unit) (H := Unit)).2 statefulB1).2.2.2
     (by decide) rfl (by decide)⟩

/-- C3: on every successful trigger the before-style hooks run before the
commit and the after-style hooks run exactly once after the commit and
before `Trigger` returns.  Each engine generation implements one hook
family: the stateless engine runs the transition-level before/after
callbacks around the commit of its return value; the stateful engine runs
the event's before/after capabilities around the write to the
current-state cell.  In both, a present before hook runs exactly once and
only before the commit, and a present after hook runs exactly once and
only after the commit. -/
theorem C3_hooks_bracket_commit
    {S E C H : Type} [DecidableEq S] [DecidableEq E] :
    (∀ (sm : Stateless.StateMachine S E C H) (ctx : C) (c : S) (e : E)
       (t : Stateless.Transition S E C H),
       mapLookup ((mapLookup sm.transitions c).getD []) e = some t →
       (∀ g, t.guard = some g → g ctx c t.to_ e = true) →
       (Stateless.Trigger sm ctx c e).1.2 = none
       ∧ bracketsCommit (Stateless.Trigger sm ctx c e).2
           TraceEv.transBefore TraceEv.transAfter t.before.isSome t.after.isSome)
    ∧ (∀ (beforeCap afterCap : E → Bool) (ctx : C)
         (sm : Stateful.StateMachine S E C) (e : E)
         (trs : List (E × Stateful.Transition S E C)) (t : Stateful.Transition S E C),
         mapLookup sm.transitions sm.currentState = some trs →
         mapLookup trs e = some t →
         (∀ g, t.guard = some g → g ctx sm.currentState t.to_ e = true) →
         (Stateful.Trigger beforeCap afterCap ctx sm e).1.2 = none
         ∧ bracketsCommit (Stateful.Trigger beforeCap afterCap ctx sm e).2
             TraceEv.evBefore TraceEv.evAfter (beforeCap e) (afterCap e)) := by
  constructor
  · intro sm ctx c e t h1 h2
    have hcase : Stateless.Trigger sm ctx c e = ((t.to_, none), Stateless.hookTrace t) := by
      simp only [Stateless.Trigger, h1]
      rcases hg : t.guard with _ | g
      · simp
      · simp [h2 g hg]
    rw [hcase]
    refine ⟨rfl, ?_⟩
    rcases hb : t.before with _ | x <;> rcases ha : t.after with _ | y <;>
      simp [Stateless.hookTrace, hb, ha, bracketsCommit, preCommit, postCommit]
  · intro beforeCap afterCap ctx sm e trs t h1 h2 h3
    have hcase : Stateful.Trigger beforeCap afterCap ctx sm e
        = (({ sm with currentState := t.to_ }, none),
           Stateful.capTrace beforeCap afterCap e) := by
      simp only [Stateful.Trigger, h1, h2]
      rcases hg : t.guard with _ | g
      · simp
      · simp [h3 g hg]
    rw [hcase]
    refine ⟨rfl, ?_⟩
    rcases hB : beforeCap e <;> rcases hA : afterCap e <;>
      simp [Stateful.capTrace, hB, hA, bracketsCommit, preCommit, postCommit]

/-- Witness for C3: both engines at concrete machines with both hooks
present.  In `hookedStateless` the transition carries a before and an
after callback; in `plainStateful` the event carries both capabilities. -/
theorem C3_hooks_bracket_commit_witness :
    (Stateless.Trigger hookedStateless () 0 1).1.2 = none
    ∧ bracketsCommit (Stateless.Trigger hookedStateless () 0 1).2
        TraceEv.transBefore TraceEv.transAfter true true
    ∧ (Stateful.Trigger allCap allCap () plainStateful 1).1.2 = none
    ∧ bracketsCommit (Stateful.Trigger allCap allCap () plainStateful 1).2
        TraceEv.evBefore TraceEv.evAfter true true := by
  have h1 := (C3_hooks_bracket_commit (S := Nat) (E := Nat) (C := Unit) (H := Nat)).1
    hookedStateless () 0 1
    { from_ := 0, to_ := 1, event := 1, before := some 10, after := some 20 }
    rfl (by intro g hg; simp at hg)
  have h2 := (C3_hooks_bracket_commit (S := Nat) (E := Nat) (C := Unit) (H := Nat)).2
    allCap allCap () plainStateful 1
    [(1, { from_ := 0, to_ := 1, event := 1 })]
    { from_ := 0, to_ := 1, event := 1 }
    rfl rfl (by intro g hg; simp at hg)
  exact ⟨h1.1, h1.2, h2.1, h2.2⟩

/-- A stateless machine with the guarded table of `guardedStateful`. -/
def guardedStateless : Stateless.StateMachine Nat Nat Unit Unit :=
  { states := [0],
    transitions := [(0, [(1, { from_ := 0, to_ := 1, event := 1,
                               guard := some (fun _ _ _ _ => false) })])] }

/-- C1 (amended): for every registered transition for `(c, e)`: when an
attached guard evaluates false, `Trigger` fails and the state is unchanged
— the stateless engine returns `c` with `GuardError{from, to, event}`,
while the stateful engine keeps its cell and returns the generic
`fmt.Errorf` error rather than a structured guard error; when the guard
evaluates true, or no guard is attached, the transition commits: the
stateless `Trigger` returns the target state, the stateful `Trigger`
overwrites the current-state cell with the target. -/
theorem C1_amended_guard_gates_transition
    {S E C H : Type} [DecidableEq S] [DecidableEq E] :
    (∀ (sm : Stateless.StateMachine S E C H) (ctx : C) (c : S) (e : E)
       (t : Stateless.Transition S E C H),
       mapLookup ((mapLookup sm.transitions c).getD []) e = some t →
       (∀ g, t.guard = some g →
         (g ctx c t.to_ e = false →
           (Stateless.Trigger sm ctx c e).1 = (c, some (.guardError c t.to_ e)))
         ∧ (g ctx c t.to_ e = true →
           (Stateless.Trigger sm ctx c e).1 = (t.to_, none)))
       ∧ (t.guard = none → (Stateless.Trigger sm ctx c e).1 = (t.to_, none)))
    ∧ (∀ (beforeCap afterCap : E → Bool) (ctx : C)
         (sm : Stateful.StateMachine S E C) (e : E)
         (trs : List (E × Stateful.Transition S E C)) (t : Stateful.Transition S E C),
         mapLookup sm.transitions sm.currentState = some trs →
         mapLookup trs e = some t →
         (∀ g, t.guard = some g →
           (g ctx sm.currentState t.to_ e = false →
             (Stateful.Trigger beforeCap afterCap ctx sm e).1
               = (sm, some (.errorf "no valid transition for current state and given event")))
           ∧ (g ctx sm.currentState t.to_ e = true →
             (Stateful.Trigger beforeCap afterCap ctx sm e).1
               = ({ sm with currentState := t.to_ }, none)))
         ∧ (t.guard = none →
           (Stateful.Trigger beforeCap afterCap ctx sm e).1
             = ({ sm with currentState := t.to_ }, none))) := by
  constructor
  · intro sm ctx c e t h1
    constructor
    · intro g hg
      constructor
      · intro hfalse
        simp [Stateless.Trigger, h1, hg, hfalse]
      · intro htrue
        simp [Stateless.Trigger, h1, hg, htrue]
    · intro hg
      simp [Stateless.Trigger, h1, hg]
  · intro beforeCap afterCap ctx sm e trs t h1 h2
    constructor
    · intro g hg
      constructor
      · intro hfalse
        simp [Stateful.Trigger, h1, h2, hg, hfalse]
      · intro htrue
        simp [Stateful.Trigger, h1, h2, hg, htrue]
    · intro hg
      simp [Stateful.Trigger, h1, h2, hg]

/-- Counterexample to C1 as stated: in the stateful engine a guard-false
trigger does not fail with a structured `GuardRejected{from, to, event}`.
At `guardedStateful` (entry `(0, 1)` with a constant-false guard) the
returned error is the bare `fmt.Errorf` value, which is not
`GuardError 0 1 1`; the cell does stay unchanged. -/
theorem C1_counterexample_stateful_guard_error_unstructured :
    (Stateful.Trigger noCap noCap () guardedStateful 1).1.2
      = some (.errorf "no valid transition for current state and given event")
    ∧ (GoError.errorf "no valid transition for current state and given event"
        : GoError Nat Nat) ≠ GoError.guardError 0 1 1
    ∧ (Stateful.Trigger noCap noCap () guardedStateful 1).1.1.currentState = 0 :=
  ⟨rfl, by decide, rfl⟩

/-- Witness for C1 (amended): the stateless engine rejects the guarded
transition of `guardedStateless` with a structured `GuardError`, and the
stateful engine commits the unguarded transition of `plainStateful`,
overwriting the cell with the target. -/
theorem C1_amended_guard_gates_transition_witness :
    (Stateless.Trigger guardedStateless () 0 1).1
      = (0, some (.guardError 0 1 1))
    ∧ (Stateful.Trigger noCap noCap () plainStateful 1).1
      = ({ plainStateful with currentState := 1 }, none) := by
  have h1 := ((C1_amended_guard_gates_transition
      (S := Nat) (E := Nat) (C := Unit) (H := Unit)).1 guardedStateless () 0 1
      { from_ := 0, to_ := 1, event := 1, guard := some (fun _ _ _ _ => false) }
      rfl).1 (fun _ _ _ _ => false) rfl
  have h2 := ((C1_amended_guard_gates_transition
      (S := Nat) (E := Nat) (C := Unit) (H := Unit)).2 noCap noCap () plainStateful 1
      [(1, { from_ := 0, to_ := 1, event := 1 })]
      { from_ := 0, to_ := 1, event := 1 } rfl rfl).2 rfl
  exact ⟨h1.1 rfl, h2⟩

/-- C2 (amended): for every current state and event with no transition
table entry, `Trigger` fails and leaves the state unchanged — the
stateless engine returns the current state with
`NoTransitionError{from, event}`, while the stateful engine keeps its cell
and returns the generic `fmt.Errorf` error rather than a structured
no-transition error. -/
theorem C2_amended_no_transition_entry
    {S E C H : Type} [DecidableEq S] [DecidableEq E] :
    (∀ (sm : Stateless.StateMachine S E C H) (ctx : C) (c : S) (e : E),
       mapLookup ((mapLookup sm.transitions c).getD []) e = none →
       Stateless.Trigger sm ctx c e = ((c, some (.noTransitionError c e)), []))
    ∧ (∀ (beforeCap afterCap : E → Bool) (ctx : C)
         (sm : Stateful.StateMachine S E C) (e : E),
         mapLookup ((mapLookup sm.transitions sm.currentState).getD []) e = none →
         Stateful.Trigger beforeCap afterCap ctx sm e
           = ((sm, some (.errorf "no valid transition for current state and given event")), [])) := by
  constructor
  · intro sm ctx c e h
    simp [Stateless.Trigger, h]
  · intro beforeCap afterCap ctx sm e h
    rcases h1 : mapLookup sm.transitions sm.currentState with _ | trs
    · simp [Stateful.Trigger, h1]
    · rw [h1] at h
      simp at h
      simp [Stateful.Trigger, h1, h]

/-- Counterexample to C2 as stated: in the stateful engine a trigger with
no table entry does not fail with a structured `NoTransition{from, event}`.
At `plainStateful` (no entry for `(0, 2)`) the returned error is the bare
`fmt.Errorf` value, which is not `NoTransitionError 0 2`; the cell does
stay unchanged. -/
theorem C2_counterexample_stateful_no_transition_error_unstructured :
    (Stateful.Trigger noCap noCap () plainStateful 2).1.2
      = some (.errorf "no valid transition for current state and given event")
    ∧ (GoError.errorf "no valid transition for current state and given event"
        : GoError Nat Nat) ≠ GoError.noTransitionError 0 2
    ∧ (Stateful.Trigger noCap noCap () plainStateful 2).1.1.currentState = 0 :=
  ⟨rfl, by decide, rfl⟩

/-- Witness for C2 (amended): concrete missing entries in both engines. -/
theorem C2_amended_no_transition_entry_witness :
    Stateless.Trigger guardedStateless () 0 3
      = ((0, some (.noTransitionError 0 3)), [])
    ∧ Stateful.Trigger noCap noCap () plainStateful 2
      = ((plainStateful,
          some (.errorf "no valid transition for current state and given event")), []) :=
  ⟨(C2_amended_no_transition_entry
      (S := Nat) (E := Nat) (C := Unit) (H := Unit)).1 guardedStateless () 0 3 rfl,
   (C2_amended_no_transition_entry
      (S := Nat) (E := Nat) (C := Unit) (H := Unit)).2 noCap noCap () plainStateful 2 rfl⟩

/-- C6 (amended): in the stateless engine every trigger-time failure is a
structured error value — `NoTransitionError{from, event}` for a missing
entry or `GuardError{from, to, event}` with the looked-up transition's
target for a rejected guard — never a bare `fmt.Errorf` string, and the
two kinds are distinct by construction.  In the stateful engine, by
contrast, every trigger-time failure is the single bare
`fmt.Errorf("no valid transition for current state and given event")`
value, carrying no state/event context. -/
theorem C6_amended_error_taxonomy
    {S E C H : Type} [DecidableEq S] [DecidableEq E] :
    (∀ (sm : Stateless.StateMachine S E C H) (ctx : C) (c : S) (e : E)
       (err : GoError S E),
       (Stateless.Trigger sm ctx c e).1.2 = some err →
       (err = .noTransitionError c e
        ∨ ∃ t, mapLookup ((mapLookup sm.transitions c).getD []) e = some t
             ∧ err = .guardError c t.to_ e)
       ∧ (∀ msg, err ≠ .errorf msg))
    ∧ (∀ (a b : S) (x : E) (a' : S) (x' : E),
        (GoError.guardError a b x : GoError S E) ≠ .noTransitionError a' x')
    ∧ (∀ (beforeCap afterCap : E → Bool) (ctx : C)
         (sm : Stateful.StateMachine S E C) (e : E) (err : GoError S E),
         (Stateful.Trigger beforeCap afterCap ctx sm e).1.2 = some err →
         err = .errorf "no valid transition for current state and given event") := by
  refine ⟨?_, fun a b x a' x' h => GoError.noConfusion h, ?_⟩
  · intro sm ctx c e err h
    rcases h1 : mapLookup ((mapLookup sm.transitions c).getD []) e with _ | t
    · have hres : Stateless.Trigger sm ctx c e
          = ((c, some (.noTransitionError c e)), []) := by
        simp [Stateless.Trigger, h1]
      rw [hres] at h
      simp at h
      subst h
      exact ⟨Or.inl rfl, fun msg hmsg => GoError.noConfusion hmsg⟩
    · rcases hg : t.guard with _ | g
      · have hres : (Stateless.Trigger sm ctx c e).1.2 = none := by
          simp [Stateless.Trigger, h1, hg]
        rw [hres] at h
        simp at h
      · by_cases hgv : g ctx c t.to_ e = true
        · have hres : (Stateless.Trigger sm ctx c e).1.2 = none := by
            simp [Stateless.Trigger, h1, hg, hgv]
          rw [hres] at h
          simp at h
        · have hgv' : g ctx c t.to_ e = false := by
            cases hb : g ctx c t.to_ e
            · rfl
            · exact absurd hb hgv
          have hres : Stateless.Trigger sm ctx c e
              = ((c, some (.guardError c t.to_ e)), []) := by
            simp [Stateless.Trigger, h1, hg, hgv']
          rw [hres] at h
          simp at h
          subst h
          exact ⟨Or.inr ⟨t, rfl, rfl⟩, fun msg hmsg => GoError.noConfusion hmsg⟩
  · intro beforeCap afterCap ctx sm e err h
    rcases h1 : mapLookup sm.transitions sm.currentState with _ | trs
    · have hres : Stateful.Trigger beforeCap afterCap ctx sm e
          = ((sm, some (.errorf "no valid transition for current state and given event")), []) := by
        simp [Stateful.Trigger, h1]
      rw [hres] at h
      simp at h
      exact h.symm
    · rcases h2 : mapLookup trs e with _ | t
      · have hres : Stateful.Trigger beforeCap afterCap ctx sm e
            = ((sm, some (.errorf "no valid transition for current state and given event")), []) := by
          simp [Stateful.Trigger, h1, h2]
        rw [hres] at h
        simp at h
        exact h.symm
      · by_cases hgv : (match t.guard with
            | none => true
            | some g => g ctx sm.currentState t.to_ e) = true
        · have hres : (Stateful.Trigger beforeCap afterCap ctx sm e).1.2 = none := by
            simp [Stateful.Trigger, h1, h2, hgv]
          rw [hres] at h
          simp at h
        · have hres : Stateful.Trigger beforeCap afterCap ctx sm e
              = ((sm, some (.errorf "no valid transition for current state and given event")), []) := by
            simp [Stateful.Trigger, h1, h2, hgv]
          rw [hres] at h
          simp at h
          exact h.symm

/-- Counterexample to C6 as stated: in the stateful engine the two trigger
failure kinds are neither structured nor distinct.  At `guardedStateful`,
the guard-rejected failure (event `1`) and the missing-entry failure
(event `2`) return the identical bare-string error value, which differs
from both claimed structured forms. -/
theorem C6_counterexample_stateful_failures_identical_bare_string :
    (Stateful.Trigger noCap noCap () guardedStateful 1).1.2
      = some (.errorf "no valid transition for current state and given event")
    ∧ (Stateful.Trigger noCap noCap () guardedStateful 2).1.2
      = some (.errorf "no valid transition for current state and given event")
    ∧ (GoError.errorf "no valid transition for current state and given event"
        : GoError Nat Nat) ≠ GoError.guardError 0 1 1
    ∧ (GoError.errorf "no valid transition for current state and given event"
        : GoError Nat Nat) ≠ GoError.noTransitionError 0 2 :=
  ⟨rfl, rfl, by decide, by decide⟩

/-- Witness for C6 (amended) at concrete failures: the stateless guard
rejection at `guardedStateless` is characterised as a structured guard
error and is no bare string; the stateful missing-entry failure at
`guardedStateful` is the bare `fmt.Errorf` value. -/
theorem C6_amended_error_taxonomy_witness :
    ((GoError.guardError 0 1 1 : GoError Nat Nat) = .noTransitionError 0 1
      ∨ ∃ t, mapLookup ((mapLookup guardedStateless.transitions 0).getD []) 1 = some t
           ∧ (GoError.guardError 0 1 1 : GoError Nat Nat) = .guardError 0 t.to_ 1)
    ∧ (∀ msg, (GoError.guardError 0 1 1 : GoError Nat Nat) ≠ .errorf msg)
    ∧ (GoError.errorf "no valid transition for current state and given event"
        : GoError Nat Nat)
      = .errorf "no valid transition for current state and given event" := by
  have h1 := (C6_amended_error_taxonomy
      (S := Nat) (E := Nat) (C := Unit) (H := Unit)).1 guardedStateless () 0 1
      (.guardError 0 1 1) rfl
  have h3 := (C6_amended_error_taxonomy
      (S := Nat) (E := Nat) (C := Unit) (H := Unit)).2.2 noCap noCap ()
      guardedStateful 2
      (.errorf "no valid transition for current state and given event") rfl
  exact ⟨h1.1, h1.2, h3⟩

/-- C7 (amended): `Build` may be called repeatedly on the same builder;
each call re-runs the same validation, leaves the builder and its map
objects untouched, and allocates a fresh machine whose current-state cell
is seeded to the initial state and is independent of every other built
machine's cell (triggering one machine never moves another's cell).  But
the machines do NOT re-snapshot the table: each one carries the builder's
own state-set and transition-table references, so later builder mutations
are visible through previously built engines. -/
theorem C7_amended_build_repeatable_fresh_cell_shared_maps
    {S E C : Type} [DecidableEq S] [DecidableEq E] [Inhabited S]
    (h : StatefulRef.Heap S E C) (b : StatefulRef.BuilderRef S)
    (hne : h.statesObjs.getD b.statesRef [] ≠ [])
    (hset : b.isInitialStateSet = true)
    (hmem : b.initialState ∈ h.statesObjs.getD b.statesRef []) :
    ∃ (m₁ m₂ : StatefulRef.MachineRef) (h₁ h₂ : StatefulRef.Heap S E C),
      StatefulRef.BuildRef h b = (.ok m₁, h₁)
      ∧ StatefulRef.BuildRef h₁ b = (.ok m₂, h₂)
      ∧ h₁.statesObjs = h.statesObjs ∧ h₁.transObjs = h.transObjs
      ∧ h₂.statesObjs = h.statesObjs ∧ h₂.transObjs = h.transObjs
      ∧ m₁.cellRef ≠ m₂.cellRef
      ∧ StatefulRef.GetCurrentStateRef h₂ m₁ = b.initialState
      ∧ StatefulRef.GetCurrentStateRef h₂ m₂ = b.initialState
      ∧ m₁.statesRef = b.statesRef ∧ m₁.transRef = b.transRef
      ∧ m₂.statesRef = b.statesRef ∧ m₂.transRef = b.transRef
      ∧ (∀ (beforeCap afterCap : E → Bool) (ctx : C) (e : E),
          StatefulRef.GetCurrentStateRef
              ((StatefulRef.TriggerRef beforeCap afterCap ctx h₂ m₁ e).1.1) m₂
            = StatefulRef.GetCurrentStateRef h₂ m₂) := by
  have hne' : h.statesObjs[b.statesRef]?.getD [] ≠ [] := by
    simpa [List.getD_eq_getElem?_getD] using hne
  have hmem' : b.initialState ∈ h.statesObjs[b.statesRef]?.getD [] := by
    simpa [List.getD_eq_getElem?_getD] using hmem
  have hbuild1 : StatefulRef.BuildRef h b
      = (.ok { statesRef := b.statesRef, transRef := b.transRef,
               cellRef := h.cellObjs.length },
         { h with cellObjs := h.cellObjs ++ [b.initialState] }) := by
    simp [StatefulRef.BuildRef, hne', hset, hmem']
  have hbuild2 : StatefulRef.BuildRef
        { h with cellObjs := h.cellObjs ++ [b.initialState] } b
      = (.ok { statesRef := b.statesRef, transRef := b.transRef,
               cellRef := (h.cellObjs ++ [b.initialState]).length },
         { h with cellObjs := (h.cellObjs ++ [b.initialState]) ++ [b.initialState] }) := by
    simp [StatefulRef.BuildRef, hne', hset, hmem']
  have hlen : h.cellObjs.length < (h.cellObjs ++ [b.initialState]).length := by
    simp
  refine ⟨{ statesRef := b.statesRef, transRef := b.transRef,
            cellRef := h.cellObjs.length },
          { statesRef := b.statesRef, transRef := b.transRef,
            cellRef := (h.cellObjs ++ [b.initialState]).length },
          { h with cellObjs := h.cellObjs ++ [b.initialState] },
          { h with cellObjs := (h.cellObjs ++ [b.initialState]) ++ [b.initialState] },
          hbuild1, hbuild2, rfl, rfl, rfl, rfl, ?_, ?_, ?_, rfl, rfl, rfl, rfl, ?_⟩
  · simp
  · show ((h.cellObjs ++ [b.initialState]) ++ [b.initialState]).getD
        h.cellObjs.length default = b.initialState
    rw [List.getD_append _ _ _ _ hlen, getD_concat_length]
  · show ((h.cellObjs ++ [b.initialState]) ++ [b.initialState]).getD
        (h.cellObjs ++ [b.initialState]).length default = b.initialState
    rw [getD_concat_length]
  · intro beforeCap afterCap ctx e
    show (((h.cellObjs ++ [b.initialState]) ++ [b.initialState]).set
          h.cellObjs.length _).getD (h.cellObjs ++ [b.initialState]).length default
        = ((h.cellObjs ++ [b.initialState]) ++ [b.initialState]).getD
          (h.cellObjs ++ [b.initialState]).length default
    apply getD_set_ne
    simp

/-- The empty heap of the C7 run. -/
def c7h0 : StatefulRef.Heap Nat Nat Unit := ⟨[], [], []⟩

/-- The builder of the C7 run, after `SetInitialState(0)`. -/
def c7b : StatefulRef.BuilderRef Nat :=
  StatefulRef.SetInitialStateRef
    (StatefulRef.NewStateMachineBuilderRef (S := Nat) (E := Nat) (C := Unit) c7h0).1 0

/-- The heap of the C7 run after `AddState(0)`. -/
def c7hA : StatefulRef.Heap Nat Nat Unit :=
  StatefulRef.AddStateRef
    (StatefulRef.NewStateMachineBuilderRef (S := Nat) (E := Nat) (C := Unit) c7h0).2 c7b 0

/-- The C7 run's `Build` call: one machine, built before any transition is
registered. -/
def c7built : Except (GoError Nat Nat) StatefulRef.MachineRef × StatefulRef.Heap Nat Nat Unit :=
  StatefulRef.BuildRef c7hA c7b

/-- Counterexample to C7 as stated: engines built from a builder share the
builder's map objects rather than re-snapshotting, so a later builder
mutation does affect a previously built engine.  In the run
`b := NewStateMachineBuilder(); b.AddState(0); b.SetInitialState(0);
m := b.Build(); b.AddTransition(0, 1, 5)`, triggering event `5` on `m`
fails before the `AddTransition` call but succeeds after it, moving `m`'s
cell to `1` along the transition registered only after `m` was built. -/
theorem C7_counterexample_post_build_mutation_visible :
    c7built.1 = .ok { statesRef := 0, transRef := 0, cellRef := 0 }
    ∧ (StatefulRef.TriggerRef noCap noCap () c7built.2
        { statesRef := 0, transRef := 0, cellRef := 0 } 5).1.2
      = some (.errorf "no valid transition for current state and given event")
    ∧ (StatefulRef.TriggerRef noCap noCap ()
        (StatefulRef.AddTransitionRef c7built.2 c7b 0 1 5 [])
        { statesRef := 0, transRef := 0, cellRef := 0 } 5).1.2 = none
    ∧ StatefulRef.GetCurrentStateRef
        (StatefulRef.TriggerRef noCap noCap ()
          (StatefulRef.AddTransitionRef c7built.2 c7b 0 1 5 [])
          { statesRef := 0, transRef := 0, cellRef := 0 } 5).1.1
        { statesRef := 0, transRef := 0, cellRef := 0 } = 1 :=
  ⟨rfl, rfl, rfl, rfl⟩

/-- Witness for C7 (amended) at a concrete one-state heap and builder. -/
theorem C7_amended_build_repeatable_fresh_cell_shared_maps_witness :
    ∃ (m₁ m₂ : StatefulRef.MachineRef) (h₁ h₂ : StatefulRef.Heap Nat Nat Unit),
      StatefulRef.BuildRef ⟨[[0]], [[]], []⟩ ⟨0, 0, 0, true⟩ = (.ok m₁, h₁)
      ∧ StatefulRef.BuildRef h₁ ⟨0, 0, 0, true⟩ = (.ok m₂, h₂)
      ∧ h₁.statesObjs = [[0]] ∧ h₁.transObjs = [[]]
      ∧ h₂.statesObjs = [[0]] ∧ h₂.transObjs = [[]]
      ∧ m₁.cellRef ≠ m₂.cellRef
      ∧ StatefulRef.GetCurrentStateRef h₂ m₁ = 0
      ∧ StatefulRef.GetCurrentStateRef h₂ m₂ = 0
      ∧ m₁.statesRef = 0 ∧ m₁.transRef = 0
      ∧ m₂.statesRef = 0 ∧ m₂.transRef = 0
      ∧ (∀ (beforeCap afterCap : Nat → Bool) (ctx : Unit) (e : Nat),
          StatefulRef.GetCurrentStateRef
              ((StatefulRef.TriggerRef beforeCap afterCap ctx h₂ m₁ e).1.1) m₂
            = StatefulRef.GetCurrentStateRef h₂ m₂) :=
  C7_amended_build_repeatable_fresh_cell_shared_maps
    ⟨[[0]], [[]], []⟩ ⟨0, 0, 0, true⟩ (by decide) rfl (by decide)

end ZState
